import Mathlib

/-!
# Ladybug renderer interface (`include/ladybugrenderer.h`)

The header declares the enumeration `LadybugOutputImage`, the record
`LadybugImageRenderingInfo` and twenty-two entry points of the rendering
library.  This development embeds

* the enumeration, as an inductive type with its value function `val`
  (every enumerator keeps the name and the initialiser expression it has in
  the header; `0x1 << k` is written `0x1 <<< k`);
* the values of `unsigned int uiImageTypes`, as natural numbers combined with
  `|||` and tested with `&&&`;
* the declared signatures, as a table of `Decl` records.
-/

namespace Ladybug

/-! ## The enumeration `LadybugOutputImage` (header lines 48-84) -/

/-- Enumerators of the header's `LadybugOutputImage`, in declaration order. -/
inductive LadybugOutputImage
  | LADYBUG_RAW_CAM0
  | LADYBUG_RAW_CAM1
  | LADYBUG_RAW_CAM2
  | LADYBUG_RAW_CAM3
  | LADYBUG_RAW_CAM4
  | LADYBUG_RAW_CAM5
  | LADYBUG_ALL_RAW_IMAGES
  | LADYBUG_RECTIFIED_CAM0
  | LADYBUG_RECTIFIED_CAM1
  | LADYBUG_RECTIFIED_CAM2
  | LADYBUG_RECTIFIED_CAM3
  | LADYBUG_RECTIFIED_CAM4
  | LADYBUG_RECTIFIED_CAM5
  | LADYBUG_ALL_RECTIFIED_IMAGES
  | LADYBUG_PANORAMIC
  | LADYBUG_DOME
  | LADYBUG_SPHERICAL
  | LADYBUG_ALL_CAMERAS_VIEW
  | LADYBUG_ALL_OUTPUT_IMAGE
  deriving DecidableEq, Repr

open LadybugOutputImage

/-- Integer value of an enumerator, with the initialiser written in the header. -/
def LadybugOutputImage.val : LadybugOutputImage → Nat
  | LADYBUG_RAW_CAM0 => 0x1 <<< 0
  | LADYBUG_RAW_CAM1 => 0x1 <<< 1
  | LADYBUG_RAW_CAM2 => 0x1 <<< 2
  | LADYBUG_RAW_CAM3 => 0x1 <<< 3
  | LADYBUG_RAW_CAM4 => 0x1 <<< 4
  | LADYBUG_RAW_CAM5 => 0x1 <<< 5
  | LADYBUG_ALL_RAW_IMAGES => 0x0000003F
  | LADYBUG_RECTIFIED_CAM0 => 0x1 <<< 6
  | LADYBUG_RECTIFIED_CAM1 => 0x1 <<< 7
  | LADYBUG_RECTIFIED_CAM2 => 0x1 <<< 8
  | LADYBUG_RECTIFIED_CAM3 => 0x1 <<< 9
  | LADYBUG_RECTIFIED_CAM4 => 0x1 <<< 10
  | LADYBUG_RECTIFIED_CAM5 => 0x1 <<< 11
  | LADYBUG_ALL_RECTIFIED_IMAGES => 0x00000FC0
  | LADYBUG_PANORAMIC => 0x1 <<< 12
  | LADYBUG_DOME => 0x1 <<< 13
  | LADYBUG_SPHERICAL => 0x1 <<< 14
  | LADYBUG_ALL_CAMERAS_VIEW => 0x1 <<< 15
  | LADYBUG_ALL_OUTPUT_IMAGE => 0x7FFFFFFF

/-- The six raw camera image types (header lines 52-57). -/
def rawTypes : List LadybugOutputImage :=
  [LADYBUG_RAW_CAM0, LADYBUG_RAW_CAM1, LADYBUG_RAW_CAM2, LADYBUG_RAW_CAM3,
   LADYBUG_RAW_CAM4, LADYBUG_RAW_CAM5]

/-- The six rectified camera image types (header lines 61-66). -/
def rectifiedTypes : List LadybugOutputImage :=
  [LADYBUG_RECTIFIED_CAM0, LADYBUG_RECTIFIED_CAM1, LADYBUG_RECTIFIED_CAM2,
   LADYBUG_RECTIFIED_CAM3, LADYBUG_RECTIFIED_CAM4, LADYBUG_RECTIFIED_CAM5]

/-- The sixteen individual image types: every enumerator except the three
group masks `LADYBUG_ALL_RAW_IMAGES`, `LADYBUG_ALL_RECTIFIED_IMAGES` and
`LADYBUG_ALL_OUTPUT_IMAGE`. -/
def individualTypes : List LadybugOutputImage :=
  rawTypes ++ rectifiedTypes ++
    [LADYBUG_PANORAMIC, LADYBUG_DOME, LADYBUG_SPHERICAL, LADYBUG_ALL_CAMERAS_VIEW]

/-- Bitwise OR of the values of a list of enumerators, the way a caller forms
`uiImageTypes` (for instance `LADYBUG_PANORAMIC | LADYBUG_DOME`). -/
def combine : List LadybugOutputImage → Nat
  | [] => 0
  | t :: ts => t.val ||| combine ts

/-- Mask test `(v & t) != 0`. -/
def intersects (v : Nat) (t : LadybugOutputImage) : Bool :=
  v &&& t.val != 0

/-- Containment test `(v & t) == t`: every bit of `t` is set in `v`. -/
def containsType (v : Nat) (t : LadybugOutputImage) : Bool :=
  v &&& t.val == t.val

/-- The individual image types whose bit is set in `v`. -/
def requestedTypes (v : Nat) : List LadybugOutputImage :=
  individualTypes.filter (intersects v)

/-- The image types the documentation of `ladybugConfigureOutputImages` lists
as valid for `uiImageTypes` (header lines 186-197; the documentation spells the
tenth one `LADYBUG_ALL_RECTIFIED_IMAGE`, the enumerator is
`LADYBUG_ALL_RECTIFIED_IMAGES`). -/
def documentedValidTypes : List LadybugOutputImage :=
  [LADYBUG_PANORAMIC, LADYBUG_DOME, LADYBUG_SPHERICAL,
   LADYBUG_RECTIFIED_CAM0, LADYBUG_RECTIFIED_CAM1, LADYBUG_RECTIFIED_CAM2,
   LADYBUG_RECTIFIED_CAM3, LADYBUG_RECTIFIED_CAM4, LADYBUG_RECTIFIED_CAM5,
   LADYBUG_ALL_RECTIFIED_IMAGES, LADYBUG_ALL_CAMERAS_VIEW]

/-! ## `ladybugConfigureOutputImages` (header lines 158-213) -/

/-- Modelled from the spec: the enumeration `LadybugError` is declared in
`ladybug.h`, which is not among the sources.  The two codes that the
documentation of `ladybugConfigureOutputImages` names are kept apart; every
other code is `otherError`. -/
inductive LadybugError
  | LADYBUG_OK
  | LADYBUG_INVALID_ARGUMENT
  | otherError (code : Nat)
  deriving DecidableEq, Repr

/-- Modelled from the spec: the body of `ladybugConfigureOutputImages` is in the
compiled rendering library; the header has its declaration (lines 210-213) and
its documentation (lines 158-209) only.  The definition follows the
documentation: `uiImageTypes` (an `unsigned int`) is a combination of output
image types; the valid ones are `documentedValidTypes`; "If any unsupported
image types are specified by uiImageTypes, it returns
LADYBUG_INVALID_ARGUMENT"; "LADYBUG_OK is returned if all the specified image
types are successfully configured".  What configuring one image type does, and
the code returned when it fails, are not documented: `configured t` says
whether type `t` is configured successfully in the context at hand, `failure`
is the code returned otherwise. -/
def ladybugConfigureOutputImages (configured : LadybugOutputImage → Bool)
    (failure : LadybugError) (uiImageTypes : Nat) : LadybugError :=
  let specified := requestedTypes (uiImageTypes % 2 ^ 32)
  if specified.any (fun t => !documentedValidTypes.contains t) then
    LadybugError.LADYBUG_INVALID_ARGUMENT
  else if specified.all configured then
    LadybugError.LADYBUG_OK
  else
    failure

/-! ## The declared entry points (header lines 210-906) -/

/-- Named types that occur in the declared signatures. -/
inductive CBase
  | LadybugError
  | LadybugContext
  | unsignedInt
  | unsignedChar
  | float
  | bool
  | LadybugOutputImage
  | LadybugPixelFormat
  | LadybugImageRenderingInfo
  | LadybugProcessedImage
  deriving DecidableEq, Repr

/-- Parameter and result types of the declared signatures. -/
inductive CType
  | base (b : CBase)
  | const (t : CType)
  | ptr (t : CType)
  deriving DecidableEq, Repr

/-- One parameter of a declared function. -/
structure Param where
  name : String
  ty : CType
  deriving DecidableEq, Repr

/-- One function declaration of the header. -/
structure Decl where
  name : String
  result : CType
  params : List Param
  deriving DecidableEq, Repr

/-- True for `T*` where `T` is not `const`-qualified: a pointer the callee can
write through. -/
def CType.isMutablePointer : CType → Bool
  | CType.ptr (CType.const _) => false
  | CType.ptr _ => true
  | _ => false

/-- A parameter `T name`, passed by value. -/
def valueParam (name : String) (b : CBase) : Param :=
  { name := name, ty := CType.base b }

/-- A parameter `T* name`. -/
def pointerParam (name : String) (b : CBase) : Param :=
  { name := name, ty := CType.ptr (CType.base b) }

/-- The parameter `LadybugContext context` that every function takes first. -/
def contextParam : Param := valueParam "context" CBase.LadybugContext

/-- The parameter `const unsigned char** name` of the texture updates. -/
def bufferArrayParam (name : String) : Param :=
  { name := name
    ty := CType.ptr (CType.ptr (CType.const (CType.base CBase.unsignedChar))) }

/-- A declaration `LADYBUGDLL_API <result> <name>(<params>)`. -/
def declare (result : CBase) (name : String) (params : List Param) : Decl :=
  { name := name, result := CType.base result, params := params }

/-- The function declarations of `ladybugrenderer.h`, in the order of the
header, each with the result type written in front of its name. -/
def declarations : List Decl :=
  [ declare CBase.LadybugError "ladybugConfigureOutputImages"
      [contextParam, valueParam "uiImageTypes" CBase.unsignedInt],
    declare CBase.LadybugError "ladybugGetImageRenderingInfo"
      [contextParam, pointerParam "pRenderingInfo" CBase.LadybugImageRenderingInfo],
    declare CBase.LadybugError "ladybugUpdateTextures"
      [contextParam, valueParam "uiCameras" CBase.unsignedInt,
       bufferArrayParam "arpBGRABuffers",
       valueParam "pixelFormat" CBase.LadybugPixelFormat],
    declare CBase.LadybugError "ladybugUpdateTexturesGPU"
      [contextParam, valueParam "uiCameras" CBase.unsignedInt,
       bufferArrayParam "arpRGBABuffers",
       valueParam "pixelFormat" CBase.LadybugPixelFormat],
    declare CBase.LadybugError "ladybugSet3dMapSize"
      [contextParam, valueParam "uiGridCols" CBase.unsignedInt,
       valueParam "uiGridRows" CBase.unsignedInt],
    declare CBase.LadybugError "ladybugGet3dMapSize"
      [contextParam, pointerParam "puiGridCols" CBase.unsignedInt,
       pointerParam "puiGridRows" CBase.unsignedInt],
    declare CBase.LadybugError "ladybugSetRectifyMeshResolution"
      [contextParam, valueParam "uiMeshRows" CBase.unsignedInt,
       valueParam "uiMeshCols" CBase.unsignedInt],
    declare CBase.LadybugError "ladybugGetRectifyMeshResolution"
      [contextParam, pointerParam "puiMeshRows" CBase.unsignedInt,
       pointerParam "puiMeshCols" CBase.unsignedInt],
    declare CBase.LadybugError "ladybugChangeDomeViewAngle"
      [contextParam, valueParam "uiAngle" CBase.unsignedInt],
    declare CBase.LadybugError "ladybugGetDomeViewAngle"
      [contextParam, pointerParam "puiAngle" CBase.unsignedInt],
    declare CBase.LadybugError "ladybugSetSphericalViewParams"
      [contextParam, valueParam "fFOV" CBase.float,
       valueParam "fRotX" CBase.float, valueParam "fRotY" CBase.float,
       valueParam "fRotZ" CBase.float, valueParam "fTransX" CBase.float,
       valueParam "fTransY" CBase.float, valueParam "fTransZ" CBase.float],
    declare CBase.LadybugError "ladybugGetSphericalViewParams"
      [contextParam, pointerParam "pfFOV" CBase.float,
       pointerParam "pfRotX" CBase.float, pointerParam "pfRotY" CBase.float,
       pointerParam "pfRotZ" CBase.float, pointerParam "pfTransX" CBase.float,
       pointerParam "pfTransY" CBase.float, pointerParam "pfTransZ" CBase.float],
    declare CBase.LadybugError "ladybugSetAntiAliasing"
      [contextParam, valueParam "bEnable" CBase.bool],
    declare CBase.LadybugError "ladybugSetDisplayWindow"
      [contextParam],
    declare CBase.LadybugError "ladybugDisplayImage"
      [contextParam, valueParam "imageType" CBase.LadybugOutputImage],
    declare CBase.LadybugError "ladybugSetOffScreenImageSize"
      [contextParam, valueParam "imageType" CBase.LadybugOutputImage,
       valueParam "uiWidth" CBase.unsignedInt,
       valueParam "uiHeight" CBase.unsignedInt],
    declare CBase.LadybugError "ladybugGetOffScreenImageSize"
      [contextParam, valueParam "imageType" CBase.LadybugOutputImage,
       pointerParam "puiWidth" CBase.unsignedInt,
       pointerParam "puiHeight" CBase.unsignedInt],
    declare CBase.LadybugError "ladybugRenderOffScreenImage"
      [contextParam, valueParam "imageType" CBase.LadybugOutputImage,
       valueParam "pixelFormat" CBase.LadybugPixelFormat,
       pointerParam "pImage" CBase.LadybugProcessedImage],
    declare CBase.LadybugError "ladybugGetOpenGLTextureID"
      [contextParam, valueParam "imageType" CBase.LadybugOutputImage,
       pointerParam "puiID" CBase.unsignedInt,
       pointerParam "pfROIWidth" CBase.float,
       pointerParam "pfROIHeight" CBase.float],
    declare CBase.LadybugError "ladybugReleaseOffScreenImage"
      [contextParam, valueParam "imageTypes" CBase.LadybugOutputImage],
    declare CBase.LadybugError "ladybugEnableSoftwareRendering"
      [contextParam, valueParam "bEnable" CBase.bool],
    declare CBase.LadybugError "ladybugSetTextureIntensityAdjustment"
      [contextParam, valueParam "bEnable" CBase.bool] ]

/-- The names of the functions the header declares. -/
def declaredNames : List String :=
  declarations.map (fun d => d.name)

/-- Type of parameter `p` of the declared function `f`, when there is one. -/
def paramType (f p : String) : Option CType :=
  match declarations.find? (fun d => d.name == f) with
  | none => none
  | some d =>
    match d.params.find? (fun q => q.name == p) with
    | none => none
    | some q => some q.ty

/-- The (function, parameter) pairs that the documentation comments describe as
places where the function returns data to its caller: "Location to return"
(`pRenderingInfo`, `puiWidth`, `puiHeight`, `puiID`, `pfROIWidth`,
`pfROIHeight`), "Returned"/"The returned" (`puiGridCols`, `puiGridRows`,
`puiMeshRows`, `puiMeshCols`), "A pointer to the output" (`pImage`), and the
parameters of the two getters documented as "Retrieves the dome viewing angle"
and "Gets the current spherical view transformation parameters". -/
def documentedOutputs : List (String × String) :=
  [ ("ladybugGetImageRenderingInfo", "pRenderingInfo"),
    ("ladybugGet3dMapSize", "puiGridCols"),
    ("ladybugGet3dMapSize", "puiGridRows"),
    ("ladybugGetRectifyMeshResolution", "puiMeshRows"),
    ("ladybugGetRectifyMeshResolution", "puiMeshCols"),
    ("ladybugGetDomeViewAngle", "puiAngle"),
    ("ladybugGetSphericalViewParams", "pfFOV"),
    ("ladybugGetSphericalViewParams", "pfRotX"),
    ("ladybugGetSphericalViewParams", "pfRotY"),
    ("ladybugGetSphericalViewParams", "pfRotZ"),
    ("ladybugGetSphericalViewParams", "pfTransX"),
    ("ladybugGetSphericalViewParams", "pfTransY"),
    ("ladybugGetSphericalViewParams", "pfTransZ"),
    ("ladybugGetOffScreenImageSize", "puiWidth"),
    ("ladybugGetOffScreenImageSize", "puiHeight"),
    ("ladybugRenderOffScreenImage", "pImage"),
    ("ladybugGetOpenGLTextureID", "puiID"),
    ("ladybugGetOpenGLTextureID", "pfROIWidth"),
    ("ladybugGetOpenGLTextureID", "pfROIHeight") ]

/-- The (function, parameter) pairs of the header whose parameter is declared
`T* name` for a named type `T`. -/
def singlePointerParams : List (String × String) :=
  declarations.flatMap (fun d =>
    (d.params.filter (fun q =>
      match q.ty with
      | CType.ptr (CType.base _) => true
      | _ => false)).map (fun q => (d.name, q.name)))

/-- True when parameter `p` of function `f` is declared with a type the callee
can write through. -/
def isPointerOutput (fp : String × String) : Bool :=
  match paramType fp.1 fp.2 with
  | some t => t.isMutablePointer
  | none => false

/-! ## Bitwise helper lemmas -/

theorem and_two_pow_cases (v i : Nat) : v &&& 2 ^ i = 0 ∨ v &&& 2 ^ i = 2 ^ i := by
  cases h : v.testBit i
  · left
    apply Nat.eq_of_testBit_eq
    intro j
    rw [Nat.testBit_and, Nat.testBit_two_pow, Nat.zero_testBit]
    by_cases hj : i = j
    · subst hj; simp [h]
    · simp [hj]
  · right
    apply Nat.eq_of_testBit_eq
    intro j
    rw [Nat.testBit_and, Nat.testBit_two_pow]
    by_cases hj : i = j
    · subst hj; simp [h]
    · simp [hj]

theorem lor_eq_zero (a b : Nat) : a ||| b = 0 ↔ a = 0 ∧ b = 0 := by
  constructor
  · intro h
    have key : ∀ i, a.testBit i = false ∧ b.testBit i = false := by
      intro i
      have := congrArg (fun n => Nat.testBit n i) h
      simpa using this
    constructor <;> apply Nat.eq_of_testBit_eq <;> intro i <;> simp [key i]
  · rintro ⟨rfl, rfl⟩; simp

theorem lor_land_right (x y z : Nat) : (x ||| y) &&& z = (x &&& z) ||| (y &&& z) := by
  apply Nat.eq_of_testBit_eq
  intro i
  simp [Bool.and_or_distrib_right]

theorem individual_single_bit :
    ∀ t ∈ individualTypes, ∃ i < 16, t.val = 2 ^ i := by decide

theorem individual_and_ne_zero_iff :
    ∀ s ∈ individualTypes, ∀ t ∈ individualTypes, (s.val &&& t.val ≠ 0 ↔ s = t) := by
  decide

theorem combine_and_ne_zero_iff (ts : List LadybugOutputImage)
    (hts : ∀ t ∈ ts, t ∈ individualTypes) (t : LadybugOutputImage)
    (ht : t ∈ individualTypes) : combine ts &&& t.val ≠ 0 ↔ t ∈ ts := by
  induction ts with
  | nil => simp [combine]
  | cons a rest ih =>
    have ha : a ∈ individualTypes := hts a (List.mem_cons_self a rest)
    have hrest : ∀ s ∈ rest, s ∈ individualTypes :=
      fun s hs => hts s (List.mem_cons_of_mem a hs)
    have hat := individual_and_ne_zero_iff a ha t ht
    have ihr := ih hrest
    rw [combine, lor_land_right, Ne, lor_eq_zero, List.mem_cons]
    constructor
    · intro h
      by_cases h1 : a.val &&& t.val = 0
      · exact Or.inr (ihr.mp (fun h2 => h ⟨h1, h2⟩))
      · exact Or.inl (hat.mp h1).symm
    · rintro (h | h) ⟨h1, h2⟩
      · exact (hat.mpr h.symm) h1
      · exact (ihr.mpr h) h2


theorem and_combine_ne_zero_iff (v : Nat) (ts : List LadybugOutputImage) :
    v &&& combine ts ≠ 0 ↔ ∃ t ∈ ts, v &&& t.val ≠ 0 := by
  induction ts with
  | nil => simp [combine]
  | cons a rest ih =>
    rw [combine, Nat.and_or_distrib_left, Ne, lor_eq_zero]
    constructor
    · intro h
      by_cases h1 : v &&& a.val = 0
      · obtain ⟨t, ht, hv⟩ := ih.mp (fun h2 => h ⟨h1, h2⟩)
        exact ⟨t, List.mem_cons_of_mem a ht, hv⟩
      · exact ⟨a, List.mem_cons_self a rest, h1⟩
    · rintro ⟨t, ht, hv⟩ ⟨h1, h2⟩
      rcases List.mem_cons.mp ht with rfl | ht
      · exact hv h1
      · exact ih.mpr ⟨t, ht, hv⟩ h2

theorem intersects_iff_containsType (v : Nat) (t : LadybugOutputImage)
    (ht : t ∈ individualTypes) : v &&& t.val ≠ 0 ↔ containsType v t = true := by
  obtain ⟨i, _, hi⟩ := individual_single_bit t ht
  have hpos : (2 : Nat) ^ i ≠ 0 := Nat.pos_iff_ne_zero.mp (Nat.pow_pos (by decide))
  simp only [containsType, beq_iff_eq, hi]
  rcases and_two_pow_cases v i with h | h
  · simp [h, hpos.symm]
  · simp [h, hpos]

theorem mem_requestedTypes (v : Nat) (t : LadybugOutputImage) :
    t ∈ requestedTypes v ↔ t ∈ individualTypes ∧ v &&& t.val ≠ 0 := by
  simp [requestedTypes, intersects]

theorem mod_and_of_lt (v t : Nat) (ht : t < 2 ^ 32) : v % 2 ^ 32 &&& t = v &&& t := by
  apply Nat.eq_of_testBit_eq
  intro i
  rw [Nat.testBit_and, Nat.testBit_and, Nat.testBit_mod_two_pow]
  by_cases hi : i < 32
  · simp [hi]
  · have : t.testBit i = false :=
      Nat.testBit_lt_two_pow (Nat.lt_of_lt_of_le ht (Nat.pow_le_pow_right (by decide) (by omega)))
    simp [this]

theorem raw_subset_individual : ∀ t ∈ rawTypes, t ∈ individualTypes := by decide

theorem documentedOutputs_eq_singlePointerParams :
    documentedOutputs = singlePointerParams := by decide

/-! ## The claims -/

/-- C1: `LadybugOutputImage` is a bitmask.  There are sixteen distinct
individual image types; each has exactly one bit set (its value is a power of
two); two different individual types have bitwise AND 0; and for every
OR-combination of individual types, the individual types whose bit is set in
the combination are exactly the types that were combined. -/
theorem individual_types_form_bitmask (ts : List LadybugOutputImage)
    (hts : ∀ t ∈ ts, t ∈ individualTypes) :
    individualTypes.length = 16 ∧ individualTypes.Nodup ∧
    (∀ t ∈ individualTypes, ∃ i < 16, t.val = 2 ^ i) ∧
    (∀ s ∈ individualTypes, ∀ t ∈ individualTypes, s ≠ t → s.val &&& t.val = 0) ∧
    (∀ t, t ∈ requestedTypes (combine ts) ↔ t ∈ ts) := by
  refine ⟨by decide, by decide, individual_single_bit, by decide, ?_⟩
  intro t
  rw [mem_requestedTypes]
  constructor
  · rintro ⟨ht, hv⟩
    exact (combine_and_ne_zero_iff ts hts t ht).mp hv
  · intro h
    exact ⟨hts t h, (combine_and_ne_zero_iff ts hts t (hts t h)).mpr h⟩

/-- Witness of C1 at the combination `LADYBUG_PANORAMIC | LADYBUG_DOME`. -/
theorem individual_types_form_bitmask_witness :
    (∀ t ∈ [LADYBUG_PANORAMIC, LADYBUG_DOME], t ∈ individualTypes) ∧
    (∀ t, t ∈ requestedTypes (combine [LADYBUG_PANORAMIC, LADYBUG_DOME]) ↔
      t ∈ [LADYBUG_PANORAMIC, LADYBUG_DOME]) :=
  ⟨by decide,
   (individual_types_form_bitmask [LADYBUG_PANORAMIC, LADYBUG_DOME] (by decide)).2.2.2.2⟩

/-- C2: `LADYBUG_ALL_RAW_IMAGES` is 0x3F, it is the bitwise OR of the six raw
camera types, and for every value `v`, `(v & LADYBUG_ALL_RAW_IMAGES) != 0`
holds exactly when `v` contains at least one raw camera type. -/
theorem all_raw_images_mask (v : Nat) :
    LADYBUG_ALL_RAW_IMAGES.val = 0x0000003F ∧
    LADYBUG_ALL_RAW_IMAGES.val =
      (LADYBUG_RAW_CAM0.val ||| LADYBUG_RAW_CAM1.val ||| LADYBUG_RAW_CAM2.val |||
       LADYBUG_RAW_CAM3.val ||| LADYBUG_RAW_CAM4.val ||| LADYBUG_RAW_CAM5.val) ∧
    (v &&& LADYBUG_ALL_RAW_IMAGES.val ≠ 0 ↔ ∃ t ∈ rawTypes, containsType v t = true) := by
  refine ⟨by decide, by decide, ?_⟩
  have hc : LADYBUG_ALL_RAW_IMAGES.val = combine rawTypes := by decide
  rw [hc, and_combine_ne_zero_iff]
  constructor
  · rintro ⟨t, ht, hv⟩
    exact ⟨t, ht, (intersects_iff_containsType v t (raw_subset_individual t ht)).mp hv⟩
  · rintro ⟨t, ht, hv⟩
    exact ⟨t, ht, (intersects_iff_containsType v t (raw_subset_individual t ht)).mpr hv⟩

/-- C3: `LADYBUG_ALL_RECTIFIED_IMAGES` is 0xFC0, it is the bitwise OR of the
six rectified camera types, and it shares no bit with
`LADYBUG_ALL_RAW_IMAGES`. -/
theorem all_rectified_images_mask :
    LADYBUG_ALL_RECTIFIED_IMAGES.val = 0x00000FC0 ∧
    LADYBUG_ALL_RECTIFIED_IMAGES.val =
      (LADYBUG_RECTIFIED_CAM0.val ||| LADYBUG_RECTIFIED_CAM1.val |||
       LADYBUG_RECTIFIED_CAM2.val ||| LADYBUG_RECTIFIED_CAM3.val |||
       LADYBUG_RECTIFIED_CAM4.val ||| LADYBUG_RECTIFIED_CAM5.val) ∧
    LADYBUG_ALL_RECTIFIED_IMAGES.val &&& LADYBUG_ALL_RAW_IMAGES.val = 0 := by
  decide

/-- C4: `LADYBUG_ALL_OUTPUT_IMAGE` covers every enumerator: for every
enumerator `x` of `LadybugOutputImage`, `x & LADYBUG_ALL_OUTPUT_IMAGE = x`. -/
theorem all_output_image_covers (x : LadybugOutputImage) :
    x.val &&& LADYBUG_ALL_OUTPUT_IMAGE.val = x.val := by
  cases x <;> decide

/-- C5: in the documented behaviour of `ladybugConfigureOutputImages`, the
result is `LADYBUG_OK` when every image type specified in `uiImageTypes` is a
valid type and is configured successfully, it is `LADYBUG_INVALID_ARGUMENT`
when some specified image type is not a valid type, and in particular it is
`LADYBUG_INVALID_ARGUMENT` whenever `uiImageTypes` contains one of
`LADYBUG_RAW_CAM0` .. `LADYBUG_RAW_CAM5`. -/
theorem ladybugConfigureOutputImages_result (configured : LadybugOutputImage → Bool)
    (failure : LadybugError) (uiImageTypes : Nat) :
    ((∀ t ∈ requestedTypes (uiImageTypes % 2 ^ 32),
        t ∈ documentedValidTypes ∧ configured t = true) →
      ladybugConfigureOutputImages configured failure uiImageTypes =
        LadybugError.LADYBUG_OK) ∧
    ((∃ t ∈ requestedTypes (uiImageTypes % 2 ^ 32), t ∉ documentedValidTypes) →
      ladybugConfigureOutputImages configured failure uiImageTypes =
        LadybugError.LADYBUG_INVALID_ARGUMENT) ∧
    ((∃ t ∈ rawTypes, containsType uiImageTypes t = true) →
      ladybugConfigureOutputImages configured failure uiImageTypes =
        LadybugError.LADYBUG_INVALID_ARGUMENT) := by
  have invalid : (∃ t ∈ requestedTypes (uiImageTypes % 2 ^ 32), t ∉ documentedValidTypes) →
      ladybugConfigureOutputImages configured failure uiImageTypes =
        LadybugError.LADYBUG_INVALID_ARGUMENT := by
    rintro ⟨t, ht, hbad⟩
    have hany : (requestedTypes (uiImageTypes % 2 ^ 32)).any
        (fun t => !documentedValidTypes.contains t) = true := by
      rw [List.any_eq_true]
      exact ⟨t, ht, by simpa using hbad⟩
    simp only [ladybugConfigureOutputImages, hany, if_true]
  refine ⟨?_, invalid, ?_⟩
  · intro h
    have hany : (requestedTypes (uiImageTypes % 2 ^ 32)).any
        (fun t => !documentedValidTypes.contains t) = false := by
      rw [Bool.eq_false_iff]
      intro hc
      rw [List.any_eq_true] at hc
      obtain ⟨t, ht, hbad⟩ := hc
      have := (h t ht).1
      simp [this] at hbad
    have hall : (requestedTypes (uiImageTypes % 2 ^ 32)).all configured = true := by
      rw [List.all_eq_true]
      exact fun t ht => (h t ht).2
    simp only [ladybugConfigureOutputImages, hany, hall, if_true, Bool.false_eq_true, if_false]
  · rintro ⟨t, ht, hv⟩
    have hind := raw_subset_individual t ht
    have hlt : t.val < 2 ^ 32 := by
      obtain ⟨i, hi, hval⟩ := individual_single_bit t hind
      rw [hval]
      exact Nat.pow_lt_pow_right (by decide) (by omega)
    have hnot : ∀ s ∈ rawTypes, s ∉ documentedValidTypes := by decide
    refine invalid ⟨t, ?_, hnot t ht⟩
    rw [mem_requestedTypes, mod_and_of_lt _ _ hlt]
    exact ⟨hind, (intersects_iff_containsType uiImageTypes t hind).mpr hv⟩

/-- Witness of C5: with every type configurable, the documented example
`LADYBUG_PANORAMIC | LADYBUG_DOME` gives `LADYBUG_OK`, and both
`LADYBUG_PANORAMIC | LADYBUG_RAW_CAM0` and `LADYBUG_ALL_OUTPUT_IMAGE` give
`LADYBUG_INVALID_ARGUMENT`. -/
theorem ladybugConfigureOutputImages_result_witness :
    ladybugConfigureOutputImages (fun _ => true) (LadybugError.otherError 1)
        (LADYBUG_PANORAMIC.val ||| LADYBUG_DOME.val) = LadybugError.LADYBUG_OK ∧
    ladybugConfigureOutputImages (fun _ => true) (LadybugError.otherError 1)
        (LADYBUG_PANORAMIC.val ||| LADYBUG_RAW_CAM0.val) =
      LadybugError.LADYBUG_INVALID_ARGUMENT ∧
    ladybugConfigureOutputImages (fun _ => true) (LadybugError.otherError 1)
        LADYBUG_ALL_OUTPUT_IMAGE.val = LadybugError.LADYBUG_INVALID_ARGUMENT :=
  ⟨(ladybugConfigureOutputImages_result (fun _ => true) (LadybugError.otherError 1)
      (LADYBUG_PANORAMIC.val ||| LADYBUG_DOME.val)).1 (by decide),
   (ladybugConfigureOutputImages_result (fun _ => true) (LadybugError.otherError 1)
      (LADYBUG_PANORAMIC.val ||| LADYBUG_RAW_CAM0.val)).2.2 (by decide),
   (ladybugConfigureOutputImages_result (fun _ => true) (LadybugError.otherError 1)
      LADYBUG_ALL_OUTPUT_IMAGE.val).2.2 (by decide)⟩

/-- C6: the documented example argument `LADYBUG_PANORAMIC | LADYBUG_DOME`
equals 0x3000, has exactly the bits 12 (PANORAMIC) and 13 (DOME) set, specifies
exactly the individual types `LADYBUG_PANORAMIC` and `LADYBUG_DOME`, has no bit
in common with `LADYBUG_ALL_RAW_IMAGES`, and is contained in the OR of the
documented valid types, which is 0xFFC0. -/
theorem documented_example_is_valid :
    (LADYBUG_PANORAMIC.val ||| LADYBUG_DOME.val) = 0x3000 ∧
    (∀ i, (LADYBUG_PANORAMIC.val ||| LADYBUG_DOME.val).testBit i =
      (decide (i = 12) || decide (i = 13))) ∧
    requestedTypes (LADYBUG_PANORAMIC.val ||| LADYBUG_DOME.val) =
      [LADYBUG_PANORAMIC, LADYBUG_DOME] ∧
    (LADYBUG_PANORAMIC.val ||| LADYBUG_DOME.val) &&& LADYBUG_ALL_RAW_IMAGES.val = 0 ∧
    combine documentedValidTypes = 0xFFC0 ∧
    (LADYBUG_PANORAMIC.val ||| LADYBUG_DOME.val) &&& combine documentedValidTypes =
      (LADYBUG_PANORAMIC.val ||| LADYBUG_DOME.val) := by
  refine ⟨by decide, ?_, by decide, by decide, by decide, by decide⟩
  intro i
  have h12 : LADYBUG_PANORAMIC.val = 2 ^ 12 := by decide
  have h13 : LADYBUG_DOME.val = 2 ^ 13 := by decide
  rw [Nat.testBit_or, h12, h13, Nat.testBit_two_pow, Nat.testBit_two_pow]
  by_cases a : i = 12 <;> by_cases b : i = 13 <;> simp [a, b, eq_comm]

/-- C7: the header declares exactly the twenty-two listed functions, every one
of them has result type `LadybugError`, and every parameter that the
documentation describes as a place where data is returned to the caller is
declared as a pointer to a non-const type. -/
theorem every_operation_returns_status :
    declaredNames =
      ["ladybugConfigureOutputImages", "ladybugGetImageRenderingInfo",
       "ladybugUpdateTextures", "ladybugUpdateTexturesGPU", "ladybugSet3dMapSize",
       "ladybugGet3dMapSize", "ladybugSetRectifyMeshResolution",
       "ladybugGetRectifyMeshResolution", "ladybugChangeDomeViewAngle",
       "ladybugGetDomeViewAngle", "ladybugSetSphericalViewParams",
       "ladybugGetSphericalViewParams", "ladybugSetAntiAliasing",
       "ladybugSetDisplayWindow", "ladybugDisplayImage",
       "ladybugSetOffScreenImageSize", "ladybugGetOffScreenImageSize",
       "ladybugRenderOffScreenImage", "ladybugGetOpenGLTextureID",
       "ladybugReleaseOffScreenImage", "ladybugEnableSoftwareRendering",
       "ladybugSetTextureIntensityAdjustment"] ∧
    (∀ d ∈ declarations, d.result = CType.base CBase.LadybugError) ∧
    (∀ fp ∈ documentedOutputs, isPointerOutput fp = true) := by
  refine ⟨by decide, by decide, by decide⟩

end Ladybug
